import Mathlib

/-!
Verification of the Catagotchi virtual-pet program.

The repository holds the controller (`src/app.ts` and an unnamed variant of
it).  The `Cat` and `KeyListener` classes are imported by the controller but
their source files are not part of the repository, so they are modelled here
from the specification.  The controller itself (`gameTick`,
`executeUserAction`, the `step` animation-frame throttle) is embedded
directly from `src/app.ts`.

Numeric attributes are embedded as `Int` with explicit clamping to [0, 100];
frame timestamps are embedded as `Int` (the program only subtracts and
compares them).
-/

/-- Clamp an attribute value into the bounded range [0, 100]. -/
def clamp (x : Int) : Int := max 0 (min 100 x)

/-- Modelled from the spec: the fixed per-operation amounts of the missing
`Cat.ts` ("increases ... by a fixed amount", "fixed per-tick deltas").  The
spec never states the concrete numbers, so they are parameters. -/
structure CatParams where
  feedAmount : Int
  playMoodAmount : Int
  playEnergyAmount : Int
  sleepAmount : Int
  hungerDecay : Int
  energyDecay : Int
  moodDecay : Int
deriving DecidableEq

/-- Modelled from the spec: the data model of the missing `Cat.ts` —
`energy`, `hunger`, `mood` bounded in [0,100] and an aliveness flag.
`hunger` follows the fullness convention of spec section 8 (feed increases
it, passive decay decreases it, 0 is starvation). -/
structure Cat where
  energy : Int
  hunger : Int
  mood : Int
  alive : Bool
deriving DecidableEq

/-- Modelled from the spec: the Cat starts "with default mid-range values";
section 8 fixes them at hunger=50, energy=50, mood=50, alive. -/
def initialCat : Cat := ⟨50, 50, 50, true⟩

/-- Modelled from the spec: accessor `isAlive`. -/
def Cat.isAlive (c : Cat) : Bool := c.alive

/-- Modelled from the spec: accessor `getEnergy`. -/
def Cat.getEnergy (c : Cat) : Int := c.energy

/-- Modelled from the spec: accessor `getHunger`. -/
def Cat.getHunger (c : Cat) : Int := c.hunger

/-- Modelled from the spec: accessor `getMood`. -/
def Cat.getMood (c : Cat) : Int := c.mood

/-- Modelled from the spec: `feed()` "increases hunger-satisfaction by a
fixed amount, clamped to bounds. No effect if not alive." -/
def Cat.feed (p : CatParams) (c : Cat) : Cat :=
  if c.alive then { c with hunger := clamp (c.hunger + p.feedAmount) } else c

/-- Modelled from the spec: `play()` "increases mood by a fixed amount and
decreases energy by a fixed amount, both clamped. No effect if not alive." -/
def Cat.play (p : CatParams) (c : Cat) : Cat :=
  if c.alive then
    { c with mood := clamp (c.mood + p.playMoodAmount),
             energy := clamp (c.energy - p.playEnergyAmount) }
  else c

/-- Modelled from the spec: `sleep()` "increases energy by a fixed amount,
clamped. No effect if not alive." -/
def Cat.sleep (p : CatParams) (c : Cat) : Cat :=
  if c.alive then { c with energy := clamp (c.energy + p.sleepAmount) } else c

/-- Modelled from the spec: `ignore()` applies passive decay — hunger
worsens, energy drains, mood drops — by fixed per-tick deltas, clamped; no
effect if not alive.  Death: "hunger or energy bottoming out at 0 triggers
death", and per spec section 8 the pet that reached hunger 0 dies "on the
next ignore()", so the threshold check runs at the start of `ignore` and a
firing check freezes the attributes. -/
def Cat.ignore (p : CatParams) (c : Cat) : Cat :=
  if c.alive then
    if c.hunger ≤ 0 ∨ c.energy ≤ 0 then { c with alive := false }
    else
      { c with hunger := clamp (c.hunger - p.hungerDecay),
               energy := clamp (c.energy - p.energyDecay),
               mood := clamp (c.mood - p.moodDecay) }
  else c

/-- One user-visible mutation of the Cat. -/
inductive CatAction where
  | feed
  | play
  | sleep
  | ignore
deriving DecidableEq

/-- Dispatch one action to the corresponding Cat mutator. -/
def Cat.applyAction (p : CatParams) (c : Cat) : CatAction → Cat
  | .feed => c.feed p
  | .play => c.play p
  | .sleep => c.sleep p
  | .ignore => c.ignore p

/-- Run a sequence of mutator calls, first call first. -/
def Cat.run (p : CatParams) (c : Cat) (acts : List CatAction) : Cat :=
  acts.foldl (Cat.applyAction p) c

/-- All three bounded attributes lie within [0, 100]. -/
def Cat.InRange (c : Cat) : Prop :=
  0 ≤ c.energy ∧ c.energy ≤ 100 ∧ 0 ≤ c.hunger ∧ c.hunger ≤ 100 ∧
    0 ≤ c.mood ∧ c.mood ≤ 100

instance (c : Cat) : Decidable c.InRange := by
  unfold Cat.InRange; infer_instance

theorem clamp_nonneg (x : Int) : 0 ≤ clamp x := le_max_left 0 _

theorem clamp_le_100 (x : Int) : clamp x ≤ 100 := by
  unfold clamp
  rcases le_total 100 x with h | h <;> rcases le_total x 0 with h2 | h2 <;>
    simp [min_def, max_def] <;> omega

theorem applyAction_preserves_InRange (p : CatParams) (c : Cat) (a : CatAction)
    (h : c.InRange) : (c.applyAction p a).InRange := by
  obtain ⟨h1, h2, h3, h4, h5, h6⟩ := h
  cases a <;>
    simp only [Cat.applyAction, Cat.feed, Cat.play, Cat.sleep, Cat.ignore] <;>
    split <;> try split
  all_goals
    first
    | exact ⟨h1, h2, h3, h4, h5, h6⟩
    | refine ⟨?_, ?_, ?_, ?_, ?_, ?_⟩ <;>
        first
          | exact clamp_nonneg _
          | exact clamp_le_100 _
          | assumption

theorem run_preserves_InRange (p : CatParams) (c : Cat) (acts : List CatAction)
    (h : c.InRange) : (c.run p acts).InRange := by
  induction acts generalizing c with
  | nil => exact h
  | cons a rest ih =>
      exact ih _ (applyAction_preserves_InRange p c a h)

/-- C1: starting from the initial Cat, every sequence of feed/play/sleep/
ignore calls leaves energy, hunger and mood within [0, 100] after every
call (each call clamps, never wraps). -/
theorem feedPlaySleepIgnore_clamp_invariant (p : CatParams)
    (acts : List CatAction) : (initialCat.run p acts).InRange := by
  apply run_preserves_InRange
  unfold initialCat Cat.InRange
  norm_num

theorem applyAction_of_dead (p : CatParams) (c : Cat) (a : CatAction)
    (h : c.alive = false) : c.applyAction p a = c := by
  cases a <;> simp [Cat.applyAction, Cat.feed, Cat.play, Cat.sleep, Cat.ignore, h]

/-- C2: once `isAlive()` is false it stays false under every further
sequence of mutator calls, and every such call leaves the Cat (all of its
attributes) completely unchanged. -/
theorem death_is_terminal (p : CatParams) (c : Cat) (acts : List CatAction)
    (h : c.isAlive = false) :
    c.run p acts = c ∧ (c.run p acts).isAlive = false := by
  have hrun : c.run p acts = c := by
    induction acts with
    | nil => rfl
    | cons a rest ih =>
        unfold Cat.run
        rw [List.foldl_cons, applyAction_of_dead p c a h]
        exact ih
  exact ⟨hrun, by rw [hrun]; exact h⟩

/-- C2 witness: a concrete dead Cat for which a concrete call sequence is a
no-op. -/
theorem death_is_terminal_witness :
    (Cat.mk 10 0 20 false).run ⟨1, 1, 1, 1, 1, 1, 1⟩
        [.feed, .play, .sleep, .ignore] = Cat.mk 10 0 20 false ∧
      ((Cat.mk 10 0 20 false).run ⟨1, 1, 1, 1, 1, 1, 1⟩
        [.feed, .play, .sleep, .ignore]).isAlive = false :=
  death_is_terminal ⟨1, 1, 1, 1, 1, 1, 1⟩ (Cat.mk 10 0 20 false)
    [.feed, .play, .sleep, .ignore] (by decide)

/-- Modelled from the spec: key code of the monitored key F (the static
`KeyListener.KEY_F` of the missing `KeyListener.ts`). -/
def KeyListener.KEY_F : Nat := 70

/-- Modelled from the spec: key code of the monitored key P. -/
def KeyListener.KEY_P : Nat := 80

/-- Modelled from the spec: key code of the monitored key S. -/
def KeyListener.KEY_S : Nat := 83

/-- Modelled from the spec: state of the missing `KeyListener.ts` — a
boolean held-down flag per monitored key code (F, P, S); "codes not in the
monitored set always report false". -/
structure KeyListener where
  fDown : Bool
  pDown : Bool
  sDown : Bool
deriving DecidableEq

/-- Modelled from the spec: before any event every flag is down=false. -/
def KeyListener.init : KeyListener := ⟨false, false, false⟩

/-- The monitored key codes. -/
def monitoredCodes : List Nat :=
  [KeyListener.KEY_F, KeyListener.KEY_P, KeyListener.KEY_S]

/-- Modelled from the spec: "on key-down sets the corresponding flag true";
events for codes outside the monitored set leave the state unchanged. -/
def KeyListener.keyDownEvent (k : KeyListener) (code : Nat) : KeyListener :=
  if code = KeyListener.KEY_F then { k with fDown := true }
  else if code = KeyListener.KEY_P then { k with pDown := true }
  else if code = KeyListener.KEY_S then { k with sDown := true }
  else k

/-- Modelled from the spec: "on key-up sets it false". -/
def KeyListener.keyUpEvent (k : KeyListener) (code : Nat) : KeyListener :=
  if code = KeyListener.KEY_F then { k with fDown := false }
  else if code = KeyListener.KEY_P then { k with pDown := false }
  else if code = KeyListener.KEY_S then { k with sDown := false }
  else k

/-- A key-down or key-up signal carrying a key code. -/
inductive KeyEvent where
  | down (code : Nat)
  | up (code : Nat)
deriving DecidableEq

/-- Apply one key event to the listener state. -/
def KeyListener.applyEvent (k : KeyListener) : KeyEvent → KeyListener
  | .down code => k.keyDownEvent code
  | .up code => k.keyUpEvent code

/-- Apply a sequence of key events, first event first. -/
def KeyListener.runEvents (k : KeyListener) (es : List KeyEvent) : KeyListener :=
  es.foldl KeyListener.applyEvent k

/-- Modelled from the spec: `isKeyDown(code)` "returns current held state
for code; never fails; codes not in the monitored set always report
false". -/
def KeyListener.isKeyDown (k : KeyListener) (code : Nat) : Bool :=
  if code = KeyListener.KEY_F then k.fDown
  else if code = KeyListener.KEY_P then k.pDown
  else if code = KeyListener.KEY_S then k.sDown
  else false

/-- C8 counterexample: the claim quantifies over every key code, but a
key-down event for the unmonitored code Q (81) does not make
`isKeyDown(81)` true — unmonitored codes always report false. -/
theorem isKeyDown_unmonitored_down_counterexample :
    ¬ ((KeyListener.init.keyDownEvent 81).isKeyDown 81 = true) := by decide

/-- C8 amended: `isKeyDown` returns false for every code before any event;
for the monitored codes F, P, S it returns true immediately after a
key-down event for the code and false immediately after a key-up event for
the code; events for one code never change the answer for a different
code; and codes outside the monitored set report false in every reachable
state. -/
theorem isKeyDown_event_semantics :
    (∀ code : Nat, KeyListener.init.isKeyDown code = false) ∧
    (∀ (k : KeyListener) (code : Nat), code ∈ monitoredCodes →
      (k.keyDownEvent code).isKeyDown code = true) ∧
    (∀ (k : KeyListener) (code : Nat),
      (k.keyUpEvent code).isKeyDown code = false) ∧
    (∀ (k : KeyListener) (c1 c2 : Nat), c1 ≠ c2 →
      (k.keyDownEvent c2).isKeyDown c1 = k.isKeyDown c1 ∧
        (k.keyUpEvent c2).isKeyDown c1 = k.isKeyDown c1) ∧
    (∀ (k : KeyListener) (code : Nat), code ∉ monitoredCodes →
      k.isKeyDown code = false) := by
  refine ⟨?_, ?_, ?_, ?_, ?_⟩
  · intro code
    unfold KeyListener.isKeyDown KeyListener.init
    split_ifs <;> rfl
  · intro k code hmem
    simp only [monitoredCodes, List.mem_cons, List.mem_singleton,
      List.not_mem_nil, or_false] at hmem
    rcases hmem with h | h | h <;> subst h <;>
      simp [KeyListener.keyDownEvent, KeyListener.isKeyDown,
        KeyListener.KEY_F, KeyListener.KEY_P, KeyListener.KEY_S]
  · intro k code
    unfold KeyListener.keyUpEvent KeyListener.isKeyDown
    split_ifs <;> simp_all
  · intro k c1 c2 hne
    constructor <;>
      [unfold KeyListener.keyDownEvent KeyListener.isKeyDown;
       unfold KeyListener.keyUpEvent KeyListener.isKeyDown] <;>
      split_ifs <;> simp_all
  · intro k code hmem
    simp only [monitoredCodes, List.mem_cons, List.mem_singleton,
      List.not_mem_nil, or_false, not_or] at hmem
    unfold KeyListener.isKeyDown
    split_ifs <;> simp_all

/-- Observable operation performed on the Cat or the canvas during a tick
(ghost trace used to state ordering and counting claims). -/
inductive GameEvent where
  | ignored
  | fed
  | played
  | slept
  | redrew
deriving DecidableEq

/-- Whether an event is one of the user-triggered Cat actions. -/
def GameEvent.isUserAction : GameEvent → Bool
  | .fed => true
  | .played => true
  | .slept => true
  | _ => false

/-- State owned by the Catagotchi controller (src/app.ts): the Cat, the
KeyListener, the timestamp of the last executed tick, and the last values
drawn to the canvas (`none` before any redraw). -/
structure Game where
  cat : Cat
  keys : KeyListener
  lastTickTimeStamp : Int
  display : Option (Int × Int × Int)
deriving DecidableEq

/-- Embedded from src/app.ts lines 53-65 (`executeUserAction`): three
independent if-statements, one per monitored key, each applying its Cat
mutator when the key is down.  Returns the mutated Cat and the trace of
applied actions. -/
def Catagotchi.executeUserAction (p : CatParams) (keys : KeyListener)
    (c : Cat) : Cat × List GameEvent :=
  let s1 :=
    if keys.isKeyDown KeyListener.KEY_F then (c.feed p, [GameEvent.fed])
    else (c, [])
  let s2 :=
    if keys.isKeyDown KeyListener.KEY_P then
      (s1.1.play p, s1.2 ++ [GameEvent.played])
    else s1
  if keys.isKeyDown KeyListener.KEY_S then
    (s2.1.sleep p, s2.2 ++ [GameEvent.slept])
  else s2

/-- Embedded from src/app.ts lines 67-82 (`updateDisplays`): the redraw
writes the Cat's energy, hunger and mood to the canvas. -/
def Catagotchi.updateDisplays (c : Cat) : Option (Int × Int × Int) :=
  some (c.getEnergy, c.getHunger, c.getMood)

/-- Embedded from src/app.ts lines 43-51 (`gameTick`): when the Cat is
alive, `ignore()` runs first, then `executeUserAction`, then the redraw;
when it is dead nothing happens. -/
def Catagotchi.gameTick (p : CatParams) (g : Game) : Game × List GameEvent :=
  if g.cat.isAlive then
    let c1 := g.cat.ignore p
    let r := Catagotchi.executeUserAction p g.keys c1
    ({ g with cat := r.1, display := Catagotchi.updateDisplays r.1 },
      GameEvent.ignored :: (r.2 ++ [GameEvent.redrew]))
  else (g, [])

/-- Result of one animation-frame callback: the new controller state, the
tick's event trace, and how many times `gameTick()` was invoked. -/
structure StepResult where
  game : Game
  events : List GameEvent
  gameTickCalls : Nat
deriving DecidableEq

/-- Embedded from src/app.ts lines 148-157 (`step`): if the frame timestamp
minus `lastTickTimeStamp` is at least 3000, call `gameTick()` once and set
`lastTickTimeStamp` to the frame timestamp; otherwise do nothing. -/
def Catagotchi.step (p : CatParams) (ts : Int) (g : Game) : StepResult :=
  if 3000 ≤ ts - g.lastTickTimeStamp then
    let r := Catagotchi.gameTick p g
    ⟨{ r.1 with lastTickTimeStamp := ts }, r.2, 1⟩
  else ⟨g, [], 0⟩

/-- Feed a sequence of frame timestamps to `step`; returns the final state
and the timestamps of the frames on which a tick fired, in order. -/
def Catagotchi.runFrames (p : CatParams) (g : Game) :
    List Int → Game × List Int
  | [] => (g, [])
  | ts :: rest =>
      let r := Catagotchi.step p ts g
      let r2 := Catagotchi.runFrames p r.game rest
      (r2.1, if r.gameTickCalls = 1 then ts :: r2.2 else r2.2)

/-- Controller state as built by the constructor at a given start time:
fresh Cat, fresh KeyListener, `lastTickTimeStamp` set to the current
time. -/
def Catagotchi.mkGame (start : Int) : Game :=
  ⟨initialCat, KeyListener.init, start, none⟩

/-- C3: on every frame, `gameTick()` is invoked exactly once when the frame
timestamp minus the last fired tick's timestamp is at least 3000 and zero
times otherwise; a firing frame sets `lastTickTimeStamp` to the frame
timestamp and a non-firing frame changes nothing; on the frame sequence
0, 1000, 2999, 3000, 5999, 6000 starting at time 0, ticks fire exactly at
3000 and 6000. -/
theorem step_tick_throttle (p : CatParams) (g : Game) (ts : Int) :
    ((Catagotchi.step p ts g).gameTickCalls = 1 ↔
      3000 ≤ ts - g.lastTickTimeStamp) ∧
    (Catagotchi.step p ts g).gameTickCalls ≤ 1 ∧
    (3000 ≤ ts - g.lastTickTimeStamp →
      (Catagotchi.step p ts g).game.lastTickTimeStamp = ts) ∧
    (¬ 3000 ≤ ts - g.lastTickTimeStamp →
      Catagotchi.step p ts g = ⟨g, [], 0⟩) ∧
    (Catagotchi.runFrames ⟨1, 1, 1, 1, 1, 1, 1⟩ (Catagotchi.mkGame 0)
        [0, 1000, 2999, 3000, 5999, 6000]).2 = [3000, 6000] := by
  refine ⟨?_, ?_, ?_, ?_, ?_⟩
  · unfold Catagotchi.step
    split_ifs with h <;> simp [h]
  · unfold Catagotchi.step
    split_ifs <;> simp
  · intro h
    unfold Catagotchi.step
    rw [if_pos h]
  · intro h
    unfold Catagotchi.step
    rw [if_neg h]
  · decide

/-- C6: when the Cat is dead, `gameTick()` changes nothing: the Cat, the
key state, the tick timestamp and the display are left exactly as they
were, and no ignore, user action or redraw event occurs. -/
theorem gameTick_dead_is_noop (p : CatParams) (g : Game)
    (h : g.cat.isAlive = false) : Catagotchi.gameTick p g = (g, []) := by
  unfold Catagotchi.gameTick
  rw [h]
  simp

/-- C6 witness: a concrete dead-Cat state with all keys held, on which
`gameTick` is a no-op. -/
theorem gameTick_dead_is_noop_witness :
    Catagotchi.gameTick ⟨1, 1, 1, 1, 1, 1, 1⟩
        ⟨Cat.mk 10 0 20 false, ⟨true, true, true⟩, 0, none⟩ =
      (⟨Cat.mk 10 0 20 false, ⟨true, true, true⟩, 0, none⟩, []) :=
  gameTick_dead_is_noop ⟨1, 1, 1, 1, 1, 1, 1⟩
    ⟨Cat.mk 10 0 20 false, ⟨true, true, true⟩, 0, none⟩ (by decide)

/-- C9: `gameTick()` never modifies `lastTickTimeStamp`; the `step`
callback sets it to the frame timestamp exactly on frames meeting the
3000-unit threshold, independently of the Cat — replacing the Cat by any
other (in particular a dead one) changes neither the recorded timestamp
nor the number of `gameTick()` invocations. -/
theorem lastTickTimeStamp_schedule (p : CatParams) (g : Game) (ts : Int)
    (c : Cat) :
    (Catagotchi.gameTick p g).1.lastTickTimeStamp = g.lastTickTimeStamp ∧
    (3000 ≤ ts - g.lastTickTimeStamp →
      (Catagotchi.step p ts g).game.lastTickTimeStamp = ts) ∧
    (¬ 3000 ≤ ts - g.lastTickTimeStamp →
      (Catagotchi.step p ts g).game.lastTickTimeStamp =
        g.lastTickTimeStamp) ∧
    (Catagotchi.step p ts { g with cat := c }).game.lastTickTimeStamp =
      (Catagotchi.step p ts g).game.lastTickTimeStamp ∧
    (Catagotchi.step p ts { g with cat := c }).gameTickCalls =
      (Catagotchi.step p ts g).gameTickCalls := by
  refine ⟨?_, ?_, ?_, ?_, ?_⟩
  · unfold Catagotchi.gameTick
    split <;> rfl
  · intro h
    unfold Catagotchi.step
    rw [if_pos h]
  · intro h
    unfold Catagotchi.step
    rw [if_neg h]
  · unfold Catagotchi.step
    split_ifs <;> rfl
  · unfold Catagotchi.step
    split_ifs <;> rfl

/-- C4 counterexample: with the Cat alive and the keys F, P and S all held,
a single tick applies three user-triggered actions (feed, play and sleep),
not at most one — the three if-statements of `executeUserAction` are
independent, not mutually exclusive. -/
theorem at_most_one_user_action_counterexample :
    ¬ ((Catagotchi.gameTick ⟨1, 1, 1, 1, 1, 1, 1⟩
        ⟨initialCat, ⟨true, true, true⟩, 0, none⟩).2.countP
          GameEvent.isUserAction ≤ 1) := by decide

/-- C4 amended: in every tick on a live Cat, `ignore()` is applied exactly
once and one user-triggered action is applied per held monitored key —
zero to three user actions, one per key, never more. -/
theorem user_actions_per_held_key (p : CatParams) (g : Game)
    (h : g.cat.isAlive = true) :
    (Catagotchi.gameTick p g).2.countP (· == GameEvent.ignored) = 1 ∧
    (Catagotchi.gameTick p g).2.countP GameEvent.isUserAction =
      ((if g.keys.isKeyDown KeyListener.KEY_F then 1 else 0) +
        (if g.keys.isKeyDown KeyListener.KEY_P then 1 else 0) +
        (if g.keys.isKeyDown KeyListener.KEY_S then 1 else 0)) ∧
    (Catagotchi.gameTick p g).2.countP GameEvent.isUserAction ≤ 3 := by
  cases hF : g.keys.isKeyDown KeyListener.KEY_F <;>
    cases hP : g.keys.isKeyDown KeyListener.KEY_P <;>
      cases hS : g.keys.isKeyDown KeyListener.KEY_S <;>
        simp [Catagotchi.gameTick, Catagotchi.executeUserAction, h, hF, hP,
          hS, List.countP_cons, List.countP_append, GameEvent.isUserAction]

/-- C4 amended witness: with F and S held (P up) on a live Cat, exactly two
user actions are applied in the tick. -/
theorem user_actions_per_held_key_witness :
    (Catagotchi.gameTick ⟨2, 2, 2, 2, 1, 1, 1⟩
        ⟨initialCat, ⟨true, false, true⟩, 0, none⟩).2.countP
      GameEvent.isUserAction = 2 := by
  have h := user_actions_per_held_key ⟨2, 2, 2, 2, 1, 1, 1⟩
    ⟨initialCat, ⟨true, false, true⟩, 0, none⟩ (by decide)
  rw [h.2.1]
  decide

/-- C5: on a live Cat a tick applies, in this exact order: `ignore()`
first, then — independently, one per held key, in the fixed order F→feed,
P→play, S→sleep — each action whose key is down, and finally the redraw;
with several keys held all the corresponding mutators are applied in the
same tick. -/
theorem gameTick_applies_in_order (p : CatParams) (g : Game)
    (h : g.cat.isAlive = true) :
    (Catagotchi.gameTick p g).2 =
      GameEvent.ignored ::
        (((if g.keys.isKeyDown KeyListener.KEY_F then [GameEvent.fed]
            else []) ++
          (if g.keys.isKeyDown KeyListener.KEY_P then [GameEvent.played]
            else []) ++
          (if g.keys.isKeyDown KeyListener.KEY_S then [GameEvent.slept]
            else [])) ++
          [GameEvent.redrew]) ∧
    (Catagotchi.gameTick p g).1.cat =
      (let c1 := g.cat.ignore p
       let c2 := if g.keys.isKeyDown KeyListener.KEY_F then c1.feed p else c1
       let c3 := if g.keys.isKeyDown KeyListener.KEY_P then c2.play p else c2
       if g.keys.isKeyDown KeyListener.KEY_S then c3.sleep p else c3) ∧
    (Catagotchi.gameTick p g).1.display =
      Catagotchi.updateDisplays (Catagotchi.gameTick p g).1.cat := by
  cases hF : g.keys.isKeyDown KeyListener.KEY_F <;>
    cases hP : g.keys.isKeyDown KeyListener.KEY_P <;>
      cases hS : g.keys.isKeyDown KeyListener.KEY_S <;>
        simp [Catagotchi.gameTick, Catagotchi.executeUserAction, h, hF, hP,
          hS]

/-- C5 witness: with F and S held (P up) on the fresh Cat, the tick's trace
is ignore, feed, sleep, redraw in that order. -/
theorem gameTick_applies_in_order_witness :
    (Catagotchi.gameTick ⟨2, 3, 4, 5, 1, 1, 1⟩
        ⟨initialCat, ⟨true, false, true⟩, 0, none⟩).2 =
      [GameEvent.ignored, GameEvent.fed, GameEvent.slept,
        GameEvent.redrew] := by
  have h := gameTick_applies_in_order ⟨2, 3, 4, 5, 1, 1, 1⟩
    ⟨initialCat, ⟨true, false, true⟩, 0, none⟩ (by decide)
  rw [h.1]
  decide

theorem clamp_lt_of_pos (x y : Int) (hx : 0 < x) (hy : 0 < y) :
    clamp (x - y) < x := by
  simp only [clamp, max_def, min_def]
  split_ifs <;> omega

theorem clamp_zero_sub (y : Int) (hy : 0 < y) : clamp (0 - y) = 0 := by
  simp only [clamp, max_def, min_def]
  split_ifs <;> omega

/-- C7 counterexample: an alive Cat whose hunger already sits at the floor
(energy 50, hunger 0, mood 50): the claim requires the first `ignore()` to
strictly decrease the still-positive mood, but that call instead fires the
death transition and leaves mood unchanged. -/
theorem ignore_strict_decrease_counterexample :
    (Cat.mk 50 0 50 true).alive = true ∧
    0 < (Cat.mk 50 0 50 true).mood ∧
    ¬ ((Cat.ignore ⟨1, 1, 1, 1, 1, 1, 1⟩ (Cat.mk 50 0 50 true)).mood <
        (Cat.mk 50 0 50 true).mood) := by decide

/-- C7 amended: on a live Cat with positive decay deltas, an `ignore()`
call made while hunger and energy are still positive strictly decreases
hunger and energy, strictly decreases mood while mood is positive, keeps
mood clamped at 0 once it reached 0, keeps the Cat alive and never drives
an attribute below 0; an `ignore()` call made when hunger or energy has
already reached its floor instead fires the death transition and leaves
every attribute unchanged (later calls are then no-ops). -/
theorem ignore_decay_amended (p : CatParams) (c : Cat)
    (hhd : 0 < p.hungerDecay) (hed : 0 < p.energyDecay)
    (hmd : 0 < p.moodDecay) (ha : c.alive = true) :
    ((0 < c.hunger ∧ 0 < c.energy) →
      ((c.ignore p).hunger < c.hunger ∧ (c.ignore p).energy < c.energy ∧
        (0 < c.mood → (c.ignore p).mood < c.mood) ∧
        (c.mood = 0 → (c.ignore p).mood = 0) ∧
        (c.ignore p).alive = true ∧
        0 ≤ (c.ignore p).hunger ∧ 0 ≤ (c.ignore p).energy ∧
        0 ≤ (c.ignore p).mood)) ∧
    ((c.hunger ≤ 0 ∨ c.energy ≤ 0) →
      ((c.ignore p).alive = false ∧ (c.ignore p).energy = c.energy ∧
        (c.ignore p).hunger = c.hunger ∧ (c.ignore p).mood = c.mood)) := by
  have hstep : c.ignore p =
      if c.hunger ≤ 0 ∨ c.energy ≤ 0 then { c with alive := false }
      else
        { c with hunger := clamp (c.hunger - p.hungerDecay),
                 energy := clamp (c.energy - p.energyDecay),
                 mood := clamp (c.mood - p.moodDecay) } := by
    unfold Cat.ignore
    rw [ha]
    simp
  constructor
  · rintro ⟨hh, he⟩
    rw [hstep, if_neg (by omega)]
    exact ⟨clamp_lt_of_pos _ _ hh hhd, clamp_lt_of_pos _ _ he hed,
      fun hm => clamp_lt_of_pos _ _ hm hmd,
      fun hm0 => by rw [hm0]; exact clamp_zero_sub _ hmd,
      ha, clamp_nonneg _, clamp_nonneg _, clamp_nonneg _⟩
  · intro hdead
    rw [hstep, if_pos hdead]
    exact ⟨rfl, rfl, rfl, rfl⟩

/-- C7 amended witness: one ignore on the fresh Cat with decay deltas
2, 3, 4 strictly decreases all three attributes. -/
theorem ignore_decay_amended_witness :
    (Cat.ignore ⟨1, 1, 1, 1, 2, 3, 4⟩ initialCat).hunger <
        initialCat.hunger ∧
      (Cat.ignore ⟨1, 1, 1, 1, 2, 3, 4⟩ initialCat).energy <
        initialCat.energy ∧
      (Cat.ignore ⟨1, 1, 1, 1, 2, 3, 4⟩ initialCat).mood <
        initialCat.mood := by
  have h := ignore_decay_amended ⟨1, 1, 1, 1, 2, 3, 4⟩ initialCat
    (by decide) (by decide) (by decide) (by decide)
  have h2 := h.1 (by decide)
  exact ⟨h2.1, h2.2.1, h2.2.2.1 (by decide)⟩

/-- Embedded from src/unnamed/part_000 lines 49-61: `executeUserAction` of
the second controller variant — the same three independent if-statements,
one per monitored key. -/
def CatagotchiB.executeUserAction (p : CatParams) (keys : KeyListener)
    (c : Cat) : Cat × List GameEvent :=
  let s1 :=
    if keys.isKeyDown KeyListener.KEY_F then (c.feed p, [GameEvent.fed])
    else (c, [])
  let s2 :=
    if keys.isKeyDown KeyListener.KEY_P then
      (s1.1.play p, s1.2 ++ [GameEvent.played])
    else s1
  if keys.isKeyDown KeyListener.KEY_S then
    (s2.1.sleep p, s2.2 ++ [GameEvent.slept])
  else s2

/-- Embedded from src/unnamed/part_000 lines 39-47: the Cat-state portion
of the variant's `gameTick` (the redraw it also performs is rendering,
which is where the variants differ, and its `updateDisplays` has no body
in that file). -/
def CatagotchiB.gameTickCat (p : CatParams) (keys : KeyListener)
    (c : Cat) : Cat :=
  if c.isAlive then (CatagotchiB.executeUserAction p keys (c.ignore p)).1
  else c

/-- Embedded from src/unnamed/part_000 lines 119-128: the variant's `step`
throttle — fire one tick and record the timestamp when at least 3000 time
units elapsed since the last fired tick.  Returns the new
(lastTickTimeStamp, cat) pair and whether the tick fired. -/
def CatagotchiB.step (p : CatParams) (ts : Int) (lastTick : Int)
    (keys : KeyListener) (c : Cat) : (Int × Cat) × Bool :=
  if 3000 ≤ ts - lastTick then
    ((ts, CatagotchiB.gameTickCat p keys c), true)
  else ((lastTick, c), false)

/-- Timestamps on which the variant-B loop fires a tick, over a frame
sequence. -/
def CatagotchiB.runTicksFired (p : CatParams) (lastTick : Int)
    (keys : KeyListener) (c : Cat) : List Int → List Int
  | [] => []
  | ts :: rest =>
      let r := CatagotchiB.step p ts lastTick keys c
      if r.2 then ts :: CatagotchiB.runTicksFired p r.1.1 keys r.1.2 rest
      else CatagotchiB.runTicksFired p r.1.1 keys r.1.2 rest

theorem gameTick_keys_eq (p : CatParams) (g : Game) :
    (Catagotchi.gameTick p g).1.keys = g.keys := by
  unfold Catagotchi.gameTick
  split <;> rfl

theorem gameTickCat_eq_gameTick_cat (p : CatParams) (g : Game) :
    CatagotchiB.gameTickCat p g.keys g.cat =
      (Catagotchi.gameTick p g).1.cat := by
  unfold CatagotchiB.gameTickCat Catagotchi.gameTick
  cases hA : g.cat.isAlive
  · simp [hA]
  · simp [hA]
    rfl

theorem runTicksFired_eq_runFrames (p : CatParams) (g : Game)
    (frames : List Int) :
    CatagotchiB.runTicksFired p g.lastTickTimeStamp g.keys g.cat frames =
      (Catagotchi.runFrames p g frames).2 := by
  induction frames generalizing g with
  | nil => rfl
  | cons ts rest ih =>
      by_cases h : 3000 ≤ ts - g.lastTickTimeStamp
      · have hA : Catagotchi.step p ts g =
            ⟨{ (Catagotchi.gameTick p g).1 with lastTickTimeStamp := ts },
              (Catagotchi.gameTick p g).2, 1⟩ := by
          unfold Catagotchi.step
          rw [if_pos h]
        have hB : CatagotchiB.step p ts g.lastTickTimeStamp g.keys g.cat =
            ((ts, CatagotchiB.gameTickCat p g.keys g.cat), true) := by
          unfold CatagotchiB.step
          rw [if_pos h]
        have ihg := ih { (Catagotchi.gameTick p g).1 with
          lastTickTimeStamp := ts }
        simp only [CatagotchiB.runTicksFired, Catagotchi.runFrames, hA, hB]
        simp only [gameTick_keys_eq, gameTickCat_eq_gameTick_cat] at ihg ⊢
        rw [ihg]
      · have hA : Catagotchi.step p ts g = ⟨g, [], 0⟩ := by
          unfold Catagotchi.step
          rw [if_neg h]
        have hB : CatagotchiB.step p ts g.lastTickTimeStamp g.keys g.cat =
            ((g.lastTickTimeStamp, g.cat), false) := by
          unfold CatagotchiB.step
          rw [if_neg h]
        simp only [CatagotchiB.runTicksFired, Catagotchi.runFrames, hA, hB]
        simpa using ih g

/-- C10: the two controller variants agree on all game-state logic: their
`executeUserAction` functions are equal (same mutators, same order, for
every key state), their `gameTick` functions produce the same Cat, and
their `step` throttles make identical firing decisions, record identical
timestamps and produce identical Cat states — hence identical fired-tick
schedules over every frame sequence. -/
theorem variants_agree (p : CatParams) (keys : KeyListener) (c : Cat)
    (g : Game) (ts : Int) (frames : List Int) :
    CatagotchiB.executeUserAction p keys c =
      Catagotchi.executeUserAction p keys c ∧
    CatagotchiB.gameTickCat p g.keys g.cat =
      (Catagotchi.gameTick p g).1.cat ∧
    ((CatagotchiB.step p ts g.lastTickTimeStamp g.keys g.cat).2 = true ↔
      (Catagotchi.step p ts g).gameTickCalls = 1) ∧
    (CatagotchiB.step p ts g.lastTickTimeStamp g.keys g.cat).1.1 =
      (Catagotchi.step p ts g).game.lastTickTimeStamp ∧
    (CatagotchiB.step p ts g.lastTickTimeStamp g.keys g.cat).1.2 =
      (Catagotchi.step p ts g).game.cat ∧
    CatagotchiB.runTicksFired p g.lastTickTimeStamp g.keys g.cat frames =
      (Catagotchi.runFrames p g frames).2 := by
  refine ⟨rfl, gameTickCat_eq_gameTick_cat p g, ?_, ?_, ?_,
    runTicksFired_eq_runFrames p g frames⟩
  · unfold CatagotchiB.step Catagotchi.step
    split_ifs <;> simp
  · unfold CatagotchiB.step Catagotchi.step
    split_ifs <;> rfl
  · unfold CatagotchiB.step Catagotchi.step
    split_ifs with h
    · simp [gameTickCat_eq_gameTick_cat]
    · rfl
